import Mathlib

/-!
Verification of the niche-website ranking pipeline.

This file gives a shallow embedding of the discovery and scoring core:
the search-result deduplication (`discoverNicheWebsites`), the three
signal fetchers (`getPerformanceScore`, `getAuthorityScore`, the site
analyzer), the per-site scorer (`scoreSite`, `scoreMultipleSites`), the
final sort/re-rank step of the request handler, and the in-memory run
store.  External network calls are modelled by environment records whose
fields hold the outcome of each call; JavaScript `Math.round`,
truthiness of strings, and `Promise` rejection are modelled explicitly.
-/

namespace WebsiteRanker

/-- JavaScript `Math.round`: round half toward positive infinity,
`Math.round x = ⌊x + 1/2⌋`. -/
def jsRound (q : ℚ) : ℤ := ⌊q + 1/2⌋

/-- JavaScript truthiness test for an optional string: `undefined` and the
empty string are falsy. -/
def jsFalsyStr : Option String → Bool
  | none => true
  | some s => s.isEmpty

/-- JavaScript `a || b` for plain strings (`b` when `a` is empty). -/
def jsOrS (s d : String) : String := if s.isEmpty then d else s

/-- Result of parsing a URL string (the fields of a successfully
constructed `new URL(...)` that the pipeline reads). `new URL` throwing on
a malformed string is modelled by the parse function returning `none`. -/
structure URLParts where
  origin : String
  hostname : String
  deriving DecidableEq, Repr

/-! ### Signal fetchers (google-pagespeed / open-pagerank modules) -/

/-- Shape of the PageSpeed Insights HTTP response as read by
`getPerformanceScore`: whether `response.ok`, the optional
`lighthouseResult.categories.performance.score`, and the optional
`data.error` payload.  A network failure or abort of the `fetch` itself
is an `Except.error` around this. -/
structure PSIResponse where
  ok : Bool
  score : Option ℚ
  apiError : Option String
  deriving DecidableEq, Repr

/-- Return type of `getPerformanceScore` (interface `PageSpeedResult`).
The source has no `ok` flag; success is the absence of `error`. -/
structure PageSpeedResult where
  performanceScore : ℚ
  error : Option String
  deriving DecidableEq, Repr

/-- Embedding of `getPerformanceScore` (google-pagespeed module): any
fetch failure/timeout, non-2xx response or API error payload is caught
and turned into `performanceScore = 0` with an error message; on success
the lighthouse score (defaulted to 0) is clamped to `[0, 1]`. -/
def getPerformanceScore (resp : Except String PSIResponse) : PageSpeedResult :=
  match resp with
  | .error msg => { performanceScore := 0, error := some msg }
  | .ok r =>
    if !r.ok then
      { performanceScore := 0, error := some "PageSpeed API error" }
    else
      match r.apiError with
      | some m => { performanceScore := 0, error := some m }
      | none => { performanceScore := max 0 (min 1 (r.score.getD 0)), error := none }

/-- One record of the Open PageRank response array; `page_rank_decimal`
may be absent (`|| 0` in the source). -/
structure OPRRecord where
  pageRankDecimal : Option ℚ
  deriving DecidableEq, Repr

/-- Shape of the Open PageRank HTTP response as read by
`getAuthorityScore`. -/
structure OPRResponse where
  ok : Bool
  statusCode : ℤ
  response : List OPRRecord
  deriving DecidableEq, Repr

/-- Return type of `getAuthorityScore` (interface `PageRankResult`). -/
structure PageRankResult where
  authorityScore : ℚ
  error : Option String
  deriving DecidableEq, Repr

/-- Embedding of `getAuthorityScore` (open-pagerank module).  The whole
body runs in one `try`: `new URL(origin)` throwing (modelled by
`parsed = none`), fetch failure/timeout, non-2xx response or a non-200
`status_code` all yield `authorityScore = 0` with an error message.  An
empty `response` array (unknown domain) yields `authorityScore = 0` with
no error.  Otherwise the 0-10 page rank is normalized to `[0, 1]`. -/
def getAuthorityScore (parsed : Option URLParts) (resp : Except String OPRResponse) :
    PageRankResult :=
  match parsed with
  | none => { authorityScore := 0, error := some "Invalid URL" }
  | some _ =>
    match resp with
    | .error msg => { authorityScore := 0, error := some msg }
    | .ok r =>
      if !r.ok then
        { authorityScore := 0, error := some "Open PageRank API error" }
      else if r.statusCode ≠ 200 then
        { authorityScore := 0, error := some "Open PageRank API error" }
      else
        match r.response with
        | [] => { authorityScore := 0, error := none }
        | rec :: _ =>
          { authorityScore := max 0 (min 1 ((rec.pageRankDecimal.getD 0) / 10)),
            error := none }

/-- Failure of the PageSpeed fetch as seen by `getPerformanceScore`: the
HTTP call rejected (network failure or its internal 15s abort), returned
non-2xx, or carried an API error payload. -/
def psiFetchFailed : Except String PSIResponse → Bool
  | .error _ => true
  | .ok r => !r.ok || r.apiError.isSome

/-- Failure of the Open PageRank fetch as seen by `getAuthorityScore`:
rejection/timeout, non-2xx response, or a non-200 `status_code` payload.
An empty response array (unknown domain) is a known zero, not a
failure. -/
def oprFetchFailed : Except String OPRResponse → Bool
  | .error _ => true
  | .ok r => !r.ok || r.statusCode != 200

/-! ### Per-site scorer (scoring module, `scoreSite` / `scoreMultipleSites`) -/

/-- What the site analyzer returns to `scoreSite` on success: optional
title and description and a 0-1 usability fraction. -/
structure SiteInfo where
  title : Option String
  description : Option String
  usabilityScore : ℚ
  deriving DecidableEq, Repr

/-- Outcomes of the three external calls made by `scoreSite` for one
candidate.  Each call is raced against a timer (`Promise.race`); the
`...RaceTimeout` flag records that the timer rejected first.  The
`siteOutcome` is the site analyzer resolving or rejecting; the two HTTP
fields are the raw responses consumed by the fetchers above (the
fetchers themselves never reject). -/
structure SignalEnv where
  siteRaceTimeout : Bool
  siteOutcome : Except String SiteInfo
  psiRaceTimeout : Bool
  psiHTTP : Except String PSIResponse
  oprRaceTimeout : Bool
  oprHTTP : Except String OPRResponse

/-- The five 0-100 component scores (interface `SiteScoreComponents`). -/
structure SiteScoreComponents where
  search : ℤ
  performance : ℤ
  authority : ℤ
  freshness : ℤ
  usability : ℤ
  deriving DecidableEq, Repr

/-- One scored site (interface `ScoredSite`). -/
structure ScoredSite where
  url : String
  title : String
  description : String
  score : ℤ
  components : SiteScoreComponents
  deriving DecidableEq, Repr

/-- `new URL(origin).hostname`, which throws (rejects the surrounding
async function) when the origin does not parse. -/
def hostFallback (parse : String → Option URLParts) (origin : String) :
    Except String String :=
  match parse origin with
  | some u => Except.ok u.hostname
  | none => Except.error "Invalid URL"

/-- The `Promise.race` of the site-analyzer call against its 10s timer:
either the timer rejects first or the analyzer settles. -/
def scoreSiteRace (env : SignalEnv) : Except String SiteInfo :=
  if env.siteRaceTimeout then Except.error "Site analysis timeout" else env.siteOutcome

/-- The PageSpeed signal failed (or timed out) for a candidate: the race
timer in `scoreSite` fired, or the fetch itself failed. -/
def psiCallFailed (env : SignalEnv) : Bool :=
  env.psiRaceTimeout || psiFetchFailed env.psiHTTP

/-- The authority signal failed (or timed out) for a candidate. -/
def oprCallFailed (env : SignalEnv) : Bool :=
  env.oprRaceTimeout || oprFetchFailed env.oprHTTP

/-- The five component scores `scoreSite` computes for one candidate:
failed signal calls leave their scores at the 0 defaults, the search
score is purely rank-based, freshness is the constant 75, and every
component is `Math.round`ed. -/
def scoreSiteComponents (parse : String → Option URLParts) (env : SignalEnv)
    (origin : String) (searchRank : ℤ) : SiteScoreComponents :=
  let usabilityScore : ℚ := match scoreSiteRace env with
    | .ok si => si.usabilityScore * 100
    | .error _ => 0
  let performanceScore : ℚ :=
    if env.psiRaceTimeout then 0 else (getPerformanceScore env.psiHTTP).performanceScore * 100
  let authorityScore : ℚ :=
    if env.oprRaceTimeout then 0
    else (getAuthorityScore (parse origin) env.oprHTTP).authorityScore * 100
  let searchScore : ℚ := max 0 (100 - ((searchRank : ℚ) - 1) * 10)
  let freshnessScore : ℚ := 75
  { search := jsRound searchScore
    performance := jsRound performanceScore
    authority := jsRound authorityScore
    freshness := jsRound freshnessScore
    usability := jsRound usabilityScore }

/-- Embedding of `scoreSite`.  The three signal calls are awaited one
after the other, each inside its own `try`/`catch` racing an explicit
timer; failures leave the corresponding score at its 0 default.  The
components are the rounded scores; the total is the rounded 40/25/15/10/10
weighted sum.  The returned record falls back to
`new URL(origin).hostname` for a missing title/description, which is the
only place `scoreSite` itself can throw. -/
def scoreSite (parse : String → Option URLParts) (env : SignalEnv)
    (origin : String) (searchRank : ℤ) : Except String ScoredSite :=
  let titleOpt : Option String := match scoreSiteRace env with
    | .ok si => si.title
    | .error _ => none
  let descOpt : Option String := match scoreSiteRace env with
    | .ok si => si.description
    | .error _ => none
  let components : SiteScoreComponents := scoreSiteComponents parse env origin searchRank
  let totalScore : ℤ := jsRound
    ((components.search : ℚ) * 0.40 +
     (components.performance : ℚ) * 0.25 +
     (components.authority : ℚ) * 0.15 +
     (components.freshness : ℚ) * 0.10 +
     (components.usability : ℚ) * 0.10)
  do
    let t ← if jsFalsyStr titleOpt then hostFallback parse origin
            else Except.ok (titleOpt.getD "")
    let d ← if jsFalsyStr descOpt then
              Except.map (fun h => "Website for " ++ h) (hostFallback parse origin)
            else Except.ok (descOpt.getD "")
    Except.ok { url := origin, title := t, description := d,
                score := totalScore, components := components }

/-- Embedding of the `.catch` handler in `scoreMultipleSites`: it builds a
minimal record for a site whose scoring rejected — but the handler itself
evaluates `new URL(origin)`, so it throws in turn when the origin does not
parse.  `p` is the zero-based global position (`i + index`). -/
def scoreSiteFallback (parse : String → Option URLParts) (origin : String)
    (p : ℕ) : Except String ScoredSite :=
  match parse origin with
  | none => Except.error "Invalid URL"
  | some u =>
    Except.ok
      { url := origin
        title := u.hostname
        description := "Website for " ++ u.hostname
        score := 30
        components :=
          { search := max 0 (100 - (p : ℤ) * 10), performance := 0,
            authority := 0, freshness := 50, usability := 0 } }

/-- Scoring of the candidate at zero-based position `p`:
`scoreSite(origin, i + index + 1).catch(fallback)`. -/
def scoreOne (parse : String → Option URLParts) (env : SignalEnv)
    (origin : String) (p : ℕ) : Except String ScoredSite :=
  match scoreSite parse env origin ((p : ℤ) + 1) with
  | .ok r => Except.ok r
  | .error _ => scoreSiteFallback parse origin p

/-- Helper for `scoreMultipleSites`: score the remaining origins starting
at global position `p`, collecting results in order; any rejection of a
batch element rejects the whole `Promise.all`, hence the whole call.
Batching (size 3 with a pause) only affects timing, never which records
are produced or their order, since `i + index` is the global position. -/
def scoreMultipleSitesGo (parse : String → Option URLParts)
    (env : ℕ → SignalEnv) : ℕ → List String → Except String (List ScoredSite)
  | _, [] => Except.ok []
  | p, o :: os => do
    let r ← scoreOne parse (env p) o p
    let rs ← scoreMultipleSitesGo parse env (p + 1) os
    Except.ok (r :: rs)

/-- Embedding of `scoreMultipleSites`: one `scoreSite` call per input
origin, in input order.  `env p` holds the outcomes of the external calls
made for the candidate at position `p`. -/
def scoreMultipleSites (parse : String → Option URLParts)
    (env : ℕ → SignalEnv) (origins : List String) :
    Except String (List ScoredSite) :=
  scoreMultipleSitesGo parse env 0 origins

/-- The 40/25/15/10/10 weighted rounded total of the claim, as a function
of the component scores. -/
def weightedTotal (c : SiteScoreComponents) : ℤ :=
  jsRound ((c.search : ℚ) * 0.40 + (c.performance : ℚ) * 0.25 +
    (c.authority : ℚ) * 0.15 + (c.freshness : ℚ) * 0.10 +
    (c.usability : ℚ) * 0.10)

/-! ### Discovery client (google-search-fallback module) -/

/-- One raw search-provider result (interface `SearchResult`; the unused
`displayLink` field is omitted).  The provider returns plain strings with
`""` standing for an absent value, matched by the `||` fallbacks. -/
structure SearchResult where
  title : String
  link : String
  snippet : String
  deriving DecidableEq, Repr

/-- One deduplicated discovery item. -/
structure OutItem where
  url : String
  title : String
  description : String
  deriving DecidableEq, Repr

/-- The dedup key of a discovery item: the origin of its (parsable)
url. -/
def originOf (parse : String → Option URLParts) (item : OutItem) :
    Option String :=
  (parse item.url).map URLParts.origin

/-- The fixed skip-list of `shouldSkipDomain`. -/
def skipDomains : List String :=
  ["google.com", "youtube.com", "facebook.com", "twitter.com",
   "instagram.com", "linkedin.com"]

/-- JavaScript `toLowerCase`, character by character. -/
def jsToLower (s : String) : String := String.mk (s.data.map Char.toLower)

/-- JavaScript `trim`: strip leading and trailing whitespace. -/
def jsTrim (s : String) : String :=
  String.mk
    (((s.data.dropWhile Char.isWhitespace).reverse.dropWhile
        Char.isWhitespace).reverse)

/-- `hostname.replace(/^www\./, '')`: strip one leading `www.`. -/
def stripWWW (h : String) : String :=
  if h.data.take 4 = "www.".data then String.mk (h.data.drop 4) else h

/-- Embedding of `shouldSkipDomain`. -/
def shouldSkipDomain (hostname : String) : Bool :=
  skipDomains.contains (stripWWW hostname)

/-- Embedding of `buildSearchQueries`: five fixed templates around the
lowercased, trimmed niche, in priority order. -/
def buildSearchQueries (niche : String) : List String :=
  let cleanNiche := jsTrim (jsToLower niche)
  ["best " ++ cleanNiche ++ " websites",
   "top " ++ cleanNiche ++ " sites",
   "top " ++ cleanNiche ++ " blogs",
   cleanNiche ++ " resources",
   "best " ++ cleanNiche ++ " tools"]

/-- The query loop of `discoverNicheWebsites`: for each variant, page 1
(`startIndex = 1`); a failed variant records `lastError` and is skipped;
page 2 (`startIndex = 11`) is tried only when page 1 was non-empty and
its failure is ignored.  `search q i` is the outcome of the provider call
for query `q` at start index `i`. -/
def collectRaw (search : String → ℕ → Except String (List SearchResult)) :
    List String → List SearchResult → Option String →
    List SearchResult × Option String
  | [], acc, lastErr => (acc, lastErr)
  | q :: qs, acc, lastErr =>
    match search q 1 with
    | .error msg => collectRaw search qs acc (some msg)
    | .ok page1 =>
      let acc1 := acc ++ page1
      let acc2 :=
        if page1.isEmpty then acc1
        else
          match search q 11 with
          | .ok page2 => acc1 ++ page2
          | .error _ => acc1
      collectRaw search qs acc2 lastErr

/-- The dedup/filter loop of `discoverNicheWebsites` over the accumulated
raw results, carrying the `seenOrigins` set and the remaining capacity
(the source pushes and then breaks once 15 items are collected, so
`room` counts the slots left out of 15).  Unparsable links and links on
the skip-list are dropped; an origin already seen is dropped; a kept item
uses the original full link with title/snippet falling back to the
hostname / a generated description. -/
def dedupLoop (parse : String → Option URLParts) :
    List SearchResult → List String → ℕ → List OutItem
  | [], _, _ => []
  | r :: rs, seen, room =>
    match parse r.link with
    | none => dedupLoop parse rs seen room
    | some u =>
      if seen.contains u.origin then dedupLoop parse rs seen room
      else if shouldSkipDomain u.hostname then dedupLoop parse rs seen room
      else
        { url := r.link, title := jsOrS r.title u.hostname,
          description := jsOrS r.snippet ("Website from " ++ u.hostname) } ::
        (if room ≤ 1 then [] else dedupLoop parse rs (u.origin :: seen) (room - 1))

/-- Reference form of the dedup loop without the capacity cut-off: keep,
in order of first appearance, the first raw result of each admissible
origin.  Used to state that the loop returns a prefix of this list. -/
def firstAppearance (parse : String → Option URLParts) :
    List SearchResult → List String → List OutItem
  | [], _ => []
  | r :: rs, seen =>
    match parse r.link with
    | none => firstAppearance parse rs seen
    | some u =>
      if seen.contains u.origin then firstAppearance parse rs seen
      else if shouldSkipDomain u.hostname then firstAppearance parse rs seen
      else
        { url := r.link, title := jsOrS r.title u.hostname,
          description := jsOrS r.snippet ("Website from " ++ u.hostname) } ::
        firstAppearance parse rs (u.origin :: seen)

/-- JavaScript `a || b` where `a` is a possibly absent string (`null`,
`undefined` and `""` all select the fallback). -/
def jsOrOptS (o : Option String) (d : String) : String :=
  match o with
  | some s => if s.isEmpty then d else s
  | none => d

/-- Return value of `discoverNicheWebsites`. -/
structure DiscoveryResult where
  items : List OutItem
  error : Option String
  deriving DecidableEq, Repr

/-- Embedding of `discoverNicheWebsites`: run all query variants, and if
no raw result at all accumulated, return `items = []` with
`lastError || 'No results found from any search variant'`; otherwise
dedup/filter (stopping at 15) and return the first 10 — with no error
field, even when every raw result was filtered out. -/
def discoverNicheWebsites (parse : String → Option URLParts)
    (search : String → ℕ → Except String (List SearchResult))
    (niche : String) : DiscoveryResult :=
  let res := collectRaw search (buildSearchQueries niche) [] none
  if res.1.isEmpty then
    { items := [],
      error := some (jsOrOptS res.2 "No results found from any search variant") }
  else
    { items := (dedupLoop parse res.1 [] 15).take 10, error := none }

/-! ### Request handler: failure response, final sort and re-rank -/

/-- The `site` payload of one ranked result in the API response. -/
structure RankedSite where
  url : String
  title : String
  description : String
  domain : String
  deriving DecidableEq, Repr

/-- One entry of a run's `results` list. -/
structure RankedResult where
  rank : ℕ
  site : RankedSite
  score : ℤ
  components : SiteScoreComponents
  deriving DecidableEq, Repr

/-- The handled failure body the POST handler returns when discovery
produced no items: `success: false`, a message defaulting over a missing
or empty discovery error, and `results: []`. -/
structure SubmitFailure where
  success : Bool
  error : String
  results : List RankedResult
  deriving DecidableEq, Repr

/-- Embedding of the empty-discovery branch of the POST handler. -/
def discoveryFailureResponse (niche : String) (d : DiscoveryResult) :
    SubmitFailure :=
  { success := false
    error := jsOrOptS d.error
      ("No websites found for \"" ++ niche ++ "\". Try a different search term.")
    results := [] }

/-- Stable insertion of a record into a list already sorted by `score`
descending, placing it before the first entry whose score is not larger:
this is the unique order `Array.prototype.sort` (stable per the spec)
produces with the comparator `(a, b) => b.score - a.score`. -/
def insertByScoreDesc (r : RankedResult) :
    List RankedResult → List RankedResult
  | [] => [r]
  | y :: ys =>
    if y.score ≤ r.score then r :: y :: ys else y :: insertByScoreDesc r ys

/-- Stable sort by `score` descending (ties keep their original order):
the effect of `scoredSites.sort((a, b) => b.score - a.score)`. -/
def sortByScoreDesc : List RankedResult → List RankedResult
  | [] => []
  | x :: xs => insertByScoreDesc x (sortByScoreDesc xs)

/-- `scoredSites.forEach((site, index) => site.rank = index + 1)` starting
from `i`. -/
def assignRanks : ℕ → List RankedResult → List RankedResult
  | _, [] => []
  | i, r :: rs => { r with rank := i } :: assignRanks (i + 1) rs

/-- The final step of the POST handler before storing/returning a
completed run: sort by score descending (stable) and reassign 1-based
ranks in list order. -/
def sortAndRank (l : List RankedResult) : List RankedResult :=
  assignRanks 1 (sortByScoreDesc l)

/-! ### In-memory run store -/

/-- A stored run (`runData` in the source). -/
structure StoredRun where
  id : String
  niche : String
  nicheSlug : String
  status : String
  results : List RankedResult
  deriving DecidableEq, Repr

/-- The process-wide `runStorage` map, keyed by run id; `Map.set`
overwrite semantics is modelled by prepending and looking up the first
match. -/
def RunStorage : Type := List (String × StoredRun)

/-- `runStorage.set(runId, runData)`. -/
def storageSet (st : RunStorage) (k : String) (v : StoredRun) : RunStorage :=
  (k, v) :: st

/-- `runStorage.get(runId)`. -/
def storageGet (st : RunStorage) (k : String) : Option StoredRun :=
  (List.find? (fun e => e.1 = k) st).map (fun e => e.2)

/-- What the POST handler stores for a completed run. -/
def storeCompletedRun (st : RunStorage) (runId niche nicheSlug : String)
    (results : List RankedResult) : RunStorage :=
  storageSet st runId
    { id := runId, niche := niche, nicheSlug := nicheSlug,
      status := "completed", results := results }

/-- The body the GET handler builds from a stored run. -/
structure RunResponse where
  runId : String
  niche : String
  nicheSlug : String
  status : String
  results : List RankedResult
  deriving DecidableEq, Repr

/-- Embedding of the GET handler: look the run up by id; a missing id is
the 404 branch, otherwise the response echoes the stored fields. -/
def getRun (st : RunStorage) (runId : String) : Except String RunResponse :=
  match storageGet st runId with
  | none => Except.error "Run not found"
  | some rd =>
    Except.ok
      { runId := rd.id, niche := rd.niche, nicheSlug := rd.nicheSlug,
        status := rd.status, results := rd.results }

/-! ### Timing model of the signal-gathering phase of `scoreSite` -/

/-- Timeout of the `Promise.race` around the site analyzer call (ms). -/
def siteAnalysisTimeoutMs : ℚ := 10000

/-- Timeout of the `Promise.race` around the PageSpeed call (ms). -/
def psiTimeoutMs : ℚ := 15000

/-- Timeout of the `Promise.race` around the Open PageRank call (ms). -/
def oprTimeoutMs : ℚ := 10000

/-- How long each of the three signal fetches would take to settle on its
own (ms). -/
structure FetchDurations where
  site : ℚ
  psi : ℚ
  opr : ℚ

/-- A fetch raced against a timer settles when the first of the two
does. -/
def raceTime (d timeoutMs : ℚ) : ℚ := min d timeoutMs

/-- Signal-gathering latency of `scoreSite` for one candidate.  In the
source the three `await Promise.race[...]` statements run one after the
other — the PageSpeed race starts only after the site-analysis race has
settled, and the PageRank race after that — so the elapsed time is the
sum of the three race times. -/
def scoreSiteSignalLatency (d : FetchDurations) : ℚ :=
  raceTime d.site siteAnalysisTimeoutMs + raceTime d.psi psiTimeoutMs +
    raceTime d.opr oprTimeoutMs

/-- Modelled from the spec: the latency of running the three Signal
Fetchers concurrently (fan-out/fan-in), which the spec asserts bounds the
per-candidate signal-gathering time by the slowest of the three. -/
def concurrentSignalLatency (d : FetchDurations) : ℚ :=
  max (raceTime d.site siteAnalysisTimeoutMs)
    (max (raceTime d.psi psiTimeoutMs) (raceTime d.opr oprTimeoutMs))

/-! ### Usability checks of the site analyzer -/

/-- The three boolean facts about a fetched page that the usability
fraction is computed from. -/
structure SitePage where
  https : Bool
  hasViewportMeta : Bool
  hasOpenGraphMeta : Bool

/-- Modelled from the spec: the lightweight site-analyzer module that the
scoring module imports (`./site-analyzer`) is absent from the sources —
only its caller `scoreSite` (which reads `siteInfo.usabilityScore`, a 0-1
fraction) and an unrelated comprehensive analyzer are present.  Per the
spec it computes the usability fraction as the sum of fixed weights of
the passing checks: HTTPS 0.4, mobile viewport meta tag 0.3, at least one
Open Graph meta tag 0.3. -/
def usabilityFraction (p : SitePage) : ℚ :=
  (if p.https then 0.4 else 0) + (if p.hasViewportMeta then 0.3 else 0) +
    (if p.hasOpenGraphMeta then 0.3 else 0)

/-! ### Concrete fixtures for the closed instances -/

/-- A parse function for the concrete checks: exactly one origin
parses. -/
def parseW : String → Option URLParts := fun s =>
  if s = "https://example.com" then some ⟨"https://example.com", "example.com"⟩
  else none

/-- Call outcomes where all three signal calls succeed. -/
def envGood : SignalEnv :=
  { siteRaceTimeout := false
    siteOutcome := Except.ok ⟨some "Example", some "An example site", 9/10⟩
    psiRaceTimeout := false
    psiHTTP := Except.ok ⟨true, some (4/5), none⟩
    oprRaceTimeout := false
    oprHTTP := Except.ok ⟨true, 200, [⟨some 6⟩]⟩ }

/-- Call outcomes where the PageSpeed fetch rejects and the Open PageRank
race times out while the site analysis succeeds. -/
def envSignalsFail : SignalEnv :=
  { siteRaceTimeout := false
    siteOutcome := Except.ok ⟨some "Example", some "An example site", 9/10⟩
    psiRaceTimeout := false
    psiHTTP := Except.error "PSI timeout"
    oprRaceTimeout := true
    oprHTTP := Except.ok ⟨true, 200, [⟨some 6⟩]⟩ }

/-- Call outcomes where every external call rejects, as they must for an
origin that does not parse. -/
def envSiteFail : SignalEnv :=
  { siteRaceTimeout := false
    siteOutcome := Except.error "fetch failed"
    psiRaceTimeout := false
    psiHTTP := Except.error "PSI error"
    oprRaceTimeout := false
    oprHTTP := Except.error "OPR error" }

/-- A search provider whose first call returns one skip-listed link and
whose other calls return nothing. -/
def searchFB : String → ℕ → Except String (List SearchResult) := fun q i =>
  if q = "best x websites" ∧ i = 1 then
    Except.ok [⟨"Facebook group", "https://www.facebook.com/groups/x", "a group"⟩]
  else Except.ok []

/-- Parsing for the skip-list instance. -/
def parseFB : String → Option URLParts := fun s =>
  if s = "https://www.facebook.com/groups/x" then
    some ⟨"https://www.facebook.com", "www.facebook.com"⟩
  else none

/-- A search provider where every call fails. -/
def searchDown : String → ℕ → Except String (List SearchResult) :=
  fun _ _ => Except.error "quota exceeded"

/-- A concrete ranked result used by the run-store instance. -/
def resultW : RankedResult :=
  { rank := 1
    site := { url := "https://example.com", title := "Example",
              description := "An example site", domain := "example.com" }
    score := 86
    components := { search := 100, performance := 80, authority := 60,
                    freshness := 75, usability := 90 } }

/-- The record `scoreSite` produces for the example origin under
`envGood` at search rank 1. -/
def scoredW : ScoredSite :=
  { url := "https://example.com", title := "Example",
    description := "An example site", score := 86,
    components := { search := 100, performance := 80, authority := 60,
                    freshness := 75, usability := 90 } }

/-- The record `scoreSite` produces for the example origin under
`envSignalsFail` at search rank 1: performance and authority degrade to
0 and the total drops to `round(40 + 0 + 0 + 7.5 + 9) = 57`. -/
def scoredFailW : ScoredSite :=
  { url := "https://example.com", title := "Example",
    description := "An example site", score := 57,
    components := { search := 100, performance := 0, authority := 0,
                    freshness := 75, usability := 90 } }

/-- A concrete page passing the HTTPS and viewport checks only. -/
def pageW : SitePage := { https := true, hasViewportMeta := true, hasOpenGraphMeta := false }

/-- Call outcomes whose site analysis reports the usability fraction of
`pageW`. -/
def envUsab : SignalEnv :=
  { siteRaceTimeout := false
    siteOutcome := Except.ok ⟨some "T", some "D", usabilityFraction pageW⟩
    psiRaceTimeout := false
    psiHTTP := Except.ok ⟨true, some (4/5), none⟩
    oprRaceTimeout := false
    oprHTTP := Except.ok ⟨true, 200, [⟨some 6⟩]⟩ }

/-- A search provider returning one good link, one duplicate-origin link
and one unparsable link. -/
def searchGood : String → ℕ → Except String (List SearchResult) := fun q i =>
  if q = "best cooking websites" ∧ i = 1 then
    Except.ok [⟨"Example", "https://example.com/page", "a snippet"⟩,
               ⟨"Example again", "https://example.com/other", "dup"⟩,
               ⟨"Bad", "::::", "unparsable"⟩]
  else Except.ok []

/-- Parsing for `searchGood`: both example links share one origin. -/
def parseGood : String → Option URLParts := fun s =>
  if s = "https://example.com/page" ∨ s = "https://example.com/other" then
    some ⟨"https://example.com", "example.com"⟩
  else none

end WebsiteRanker

namespace WebsiteRanker

/-! ## Helper lemmas -/

@[simp] theorem exceptBindOk {ε α β : Type} (a : α) (f : α → Except ε β) :
    (Except.ok a >>= f : Except ε β) = f a := rfl

@[simp] theorem exceptBindErr {ε α β : Type} (e : ε) (f : α → Except ε β) :
    (Except.error e >>= f : Except ε β) = Except.error e := rfl

@[simp] theorem jsRound_zero : jsRound 0 = 0 := by norm_num [jsRound]

theorem jsRound_of_int (n : ℤ) : jsRound (n : ℚ) = n := by
  simp [jsRound, Int.floor_int_add]
  norm_num

/-- A failed PageSpeed fetch yields value 0 and an error message. -/
theorem getPerformanceScore_failed {resp : Except String PSIResponse}
    (h : psiFetchFailed resp = true) :
    (getPerformanceScore resp).performanceScore = 0 ∧
      (getPerformanceScore resp).error.isSome = true := by
  cases resp with
  | error m => exact ⟨rfl, rfl⟩
  | ok r =>
    simp only [psiFetchFailed, Bool.or_eq_true, Bool.not_eq_true'] at h
    unfold getPerformanceScore
    rcases h with h | h
    · simp [h]
    · cases hok : r.ok
      · simp [hok]
      · rcases ha : r.apiError with _ | m
        · rw [ha] at h; cases h
        · simp [hok, ha]

/-- A failed Open PageRank call (unparsable origin, rejection, non-2xx or
non-200 payload) yields value 0; when the fetch itself failed an error
message is present. -/
theorem getAuthorityScore_failed (parsed : Option URLParts)
    {resp : Except String OPRResponse} (h : oprFetchFailed resp = true) :
    (getAuthorityScore parsed resp).authorityScore = 0 ∧
      (getAuthorityScore parsed resp).error.isSome = true := by
  cases parsed with
  | none => exact ⟨rfl, rfl⟩
  | some u =>
    cases resp with
    | error m => exact ⟨rfl, rfl⟩
    | ok r =>
      simp only [oprFetchFailed, Bool.or_eq_true, Bool.not_eq_true'] at h
      unfold getAuthorityScore
      rcases h with h | h
      · simp [h]
      · cases hok : r.ok
        · simp [hok]
        · have hne : r.statusCode ≠ 200 := by simpa using h
          simp [hok, hne]

/-- A failed PageSpeed call leaves the performance component at 0. -/
theorem scoreSiteComponents_performance_zero {parse : String → Option URLParts}
    {env : SignalEnv} {origin : String} {searchRank : ℤ}
    (h : psiCallFailed env = true) :
    (scoreSiteComponents parse env origin searchRank).performance = 0 := by
  unfold scoreSiteComponents
  simp only [psiCallFailed, Bool.or_eq_true] at h
  rcases h with h | h
  · simp [h]
  · have hv := (getPerformanceScore_failed h).1
    cases hto : env.psiRaceTimeout
    · simp [hto, hv]
    · simp [hto]

/-- A failed Open PageRank call leaves the authority component at 0. -/
theorem scoreSiteComponents_authority_zero {parse : String → Option URLParts}
    {env : SignalEnv} {origin : String} {searchRank : ℤ}
    (h : oprCallFailed env = true) :
    (scoreSiteComponents parse env origin searchRank).authority = 0 := by
  unfold scoreSiteComponents
  simp only [oprCallFailed, Bool.or_eq_true] at h
  rcases h with h | h
  · simp [h]
  · have hv := (getAuthorityScore_failed (parse origin) h).1
    cases hto : env.oprRaceTimeout
    · simp [hto, hv]
    · simp [hto]

/-- The freshness component is always the constant 75. -/
theorem scoreSiteComponents_freshness {parse : String → Option URLParts}
    {env : SignalEnv} {origin : String} {searchRank : ℤ} :
    (scoreSiteComponents parse env origin searchRank).freshness = 75 := by
  unfold scoreSiteComponents
  simpa using jsRound_of_int 75

/-- When the site analysis race succeeds, the usability component is the
rounded scaled usability fraction reported by the analyzer. -/
theorem scoreSiteComponents_usability {parse : String → Option URLParts}
    {env : SignalEnv} {origin : String} {searchRank : ℤ} {si : SiteInfo}
    (hto : env.siteRaceTimeout = false) (hok : env.siteOutcome = Except.ok si) :
    (scoreSiteComponents parse env origin searchRank).usability =
      jsRound (si.usabilityScore * 100) := by
  unfold scoreSiteComponents scoreSiteRace
  simp [hto, hok]

/-- `scoreSite` can only reject when the origin does not parse (the
`new URL(origin).hostname` fallbacks are the only throwing sites). -/
theorem scoreSite_error_parse {parse : String → Option URLParts}
    {env : SignalEnv} {origin : String} {searchRank : ℤ} {e : String}
    (h : scoreSite parse env origin searchRank = Except.error e) :
    parse origin = none := by
  rcases hp : parse origin with _ | u
  · rfl
  · exfalso
    simp only [scoreSite, hostFallback, hp] at h
    split at h
    all_goals try simp only [exceptBindOk, exceptBindErr, Except.map] at h
    all_goals try split at h
    all_goals try simp only [exceptBindOk, exceptBindErr, Except.map] at h
    all_goals cases h

/-- A record returned by `scoreSite` carries the input origin as its url,
the components of `scoreSiteComponents`, and the 40/25/15/10/10 rounded
weighted total of those components as its score. -/
theorem scoreSite_ok_spec {parse : String → Option URLParts}
    {env : SignalEnv} {origin : String} {searchRank : ℤ} {r : ScoredSite}
    (h : scoreSite parse env origin searchRank = Except.ok r) :
    r.url = origin ∧
    r.components = scoreSiteComponents parse env origin searchRank ∧
    r.score = weightedTotal (scoreSiteComponents parse env origin searchRank) := by
  simp only [scoreSite, hostFallback] at h
  rcases hp : parse origin with _ | u
  all_goals rw [hp] at h
  all_goals try split at h
  all_goals try simp only [exceptBindOk, exceptBindErr, Except.map] at h
  all_goals try split at h
  all_goals try simp only [exceptBindOk, exceptBindErr, Except.map] at h
  all_goals cases h
  all_goals exact ⟨rfl, rfl, rfl⟩

/-- When the origin parses, `scoreSite` succeeds. -/
theorem scoreSite_ok_of_parse {parse : String → Option URLParts}
    {env : SignalEnv} {origin : String} {searchRank : ℤ} {u : URLParts}
    (hp : parse origin = some u) :
    ∃ r, scoreSite parse env origin searchRank = Except.ok r := by
  cases hs : scoreSite parse env origin searchRank with
  | ok r => exact ⟨r, rfl⟩
  | error e =>
    have := scoreSite_error_parse hs
    rw [hp] at this
    cases this

/-- A record returned by `scoreOne` always comes from `scoreSite`, never
from the `.catch` fallback: the fallback handler can only run after
`scoreSite` rejected, which forces the origin not to parse, and then the
handler itself rejects at `new URL(origin)`. -/
theorem scoreOne_ok_eq {parse : String → Option URLParts} {env : SignalEnv}
    {origin : String} {p : ℕ} {r : ScoredSite}
    (h : scoreOne parse env origin p = Except.ok r) :
    scoreSite parse env origin ((p : ℤ) + 1) = Except.ok r := by
  unfold scoreOne at h
  cases hs : scoreSite parse env origin ((p : ℤ) + 1) with
  | ok x => rw [hs] at h; cases h; rfl
  | error e =>
    rw [hs] at h
    have hp := scoreSite_error_parse hs
    rw [scoreSiteFallback, hp] at h
    cases h

/-- When the origin parses, `scoreOne` returns the `scoreSite` record. -/
theorem scoreOne_ok_of_parse {parse : String → Option URLParts}
    {env : SignalEnv} {origin : String} {p : ℕ} {u : URLParts}
    (hp : parse origin = some u) :
    ∃ r, scoreOne parse env origin p = Except.ok r := by
  obtain ⟨r, hr⟩ := @scoreSite_ok_of_parse parse env origin ((p : ℤ) + 1) u hp
  exact ⟨r, by unfold scoreOne; rw [hr]⟩

/-- Every record in a successful `scoreMultipleSitesGo` output comes from
a successful `scoreOne` call. -/
theorem scoreMultipleSitesGo_mem {parse : String → Option URLParts}
    {env : ℕ → SignalEnv} :
    ∀ {origins : List String} {p : ℕ} {out : List ScoredSite},
      scoreMultipleSitesGo parse env p origins = Except.ok out →
      ∀ r ∈ out, ∃ q o, scoreOne parse (env q) o q = Except.ok r := by
  intro origins
  induction origins with
  | nil =>
    intro p out h r hr
    cases h
    cases hr
  | cons o os ih =>
    intro p out h r hr
    rw [scoreMultipleSitesGo] at h
    cases h1 : scoreOne parse (env p) o p with
    | error e => rw [h1] at h; cases h
    | ok r0 =>
      rw [h1] at h
      cases h2 : scoreMultipleSitesGo parse env (p + 1) os with
      | error e => rw [h2] at h; simp at h
      | ok rs =>
        rw [h2] at h
        simp only [exceptBindOk] at h
        cases h
        rcases List.mem_cons.mp hr with hr | hr
        · exact ⟨p, o, by rw [hr]; exact h1⟩
        · exact ih h2 r hr

/-- A successful `scoreMultipleSitesGo` returns one record per origin, in
order: the record at index `i` is the successful `scoreOne` of the origin
at index `i`. -/
theorem scoreMultipleSitesGo_get {parse : String → Option URLParts}
    {env : ℕ → SignalEnv} :
    ∀ {origins : List String} {p : ℕ} {out : List ScoredSite},
      scoreMultipleSitesGo parse env p origins = Except.ok out →
      out.length = origins.length ∧
      ∀ i (hi : i < origins.length),
        ∃ r, out.get? i = some r ∧
          scoreOne parse (env (p + i)) (origins.get ⟨i, hi⟩) (p + i) = Except.ok r := by
  intro origins
  induction origins with
  | nil =>
    intro p out h
    cases h
    exact ⟨rfl, fun i hi => absurd hi (by simp)⟩
  | cons o os ih =>
    intro p out h
    rw [scoreMultipleSitesGo] at h
    cases h1 : scoreOne parse (env p) o p with
    | error e => rw [h1] at h; cases h
    | ok r0 =>
      rw [h1] at h
      cases h2 : scoreMultipleSitesGo parse env (p + 1) os with
      | error e => rw [h2] at h; simp at h
      | ok rs =>
        rw [h2] at h
        simp only [exceptBindOk] at h
        cases h
        obtain ⟨hlen, hget⟩ := ih h2
        refine ⟨by simp [hlen], ?_⟩
        intro i hi
        cases i with
        | zero => exact ⟨r0, rfl, by simpa using h1⟩
        | succ j =>
          have hj : j < os.length := by simpa using hi
          obtain ⟨r, hr1, hr2⟩ := hget j hj
          refine ⟨r, by simpa using hr1, ?_⟩
          have : p + (j + 1) = p + 1 + j := by omega
          rw [this]
          simpa using hr2

/-- When every origin parses, `scoreMultipleSitesGo` succeeds: signal
failures alone can never reject the batch. -/
theorem scoreMultipleSitesGo_ok_of_parse {parse : String → Option URLParts}
    {env : ℕ → SignalEnv} :
    ∀ {origins : List String} {p : ℕ},
      (∀ o ∈ origins, (parse o).isSome) →
      ∃ out, scoreMultipleSitesGo parse env p origins = Except.ok out := by
  intro origins
  induction origins with
  | nil => intro p _; exact ⟨[], rfl⟩
  | cons o os ih =>
    intro p hparse
    rcases ho : parse o with _ | u
    · have := hparse o (by simp)
      rw [ho] at this
      cases this
    · obtain ⟨r, hr⟩ := @scoreOne_ok_of_parse parse (env p) o p u ho
      obtain ⟨rs, hrs⟩ := @ih (p + 1) (fun x hx => hparse x (by simp [hx]))
      refine ⟨r :: rs, ?_⟩
      rw [scoreMultipleSitesGo, hr, hrs]
      rfl

/-- Inserting into the stable descending sort is a permutation. -/
theorem insertByScoreDesc_perm (r : RankedResult) (l : List RankedResult) :
    (insertByScoreDesc r l).Perm (r :: l) := by
  induction l with
  | nil => exact List.Perm.refl _
  | cons y ys ih =>
    rw [insertByScoreDesc]
    split
    · exact List.Perm.refl _
    · exact (ih.cons y).trans (List.Perm.swap r y ys)

/-- The stable sort permutes its input. -/
theorem sortByScoreDesc_perm (l : List RankedResult) :
    (sortByScoreDesc l).Perm l := by
  induction l with
  | nil => exact List.Perm.refl _
  | cons x xs ih =>
    rw [sortByScoreDesc]
    exact (insertByScoreDesc_perm x _).trans (ih.cons x)

/-- Inserting into a list sorted by score descending keeps it sorted. -/
theorem insertByScoreDesc_sorted {r : RankedResult} {l : List RankedResult}
    (hl : List.Pairwise (fun a b : RankedResult => b.score ≤ a.score) l) :
    List.Pairwise (fun a b : RankedResult => b.score ≤ a.score)
      (insertByScoreDesc r l) := by
  induction l with
  | nil => simp [insertByScoreDesc]
  | cons y ys ih =>
    rw [insertByScoreDesc]
    rcases List.pairwise_cons.mp hl with ⟨hy, hys⟩
    split
    · rename_i hle
      refine List.pairwise_cons.mpr ⟨?_, hl⟩
      intro b hb
      rcases List.mem_cons.mp hb with rfl | hb
      · exact hle
      · exact le_trans (hy b hb) hle
    · rename_i hgt
      refine List.pairwise_cons.mpr ⟨?_, ih hys⟩
      intro b hb
      have hb2 := (insertByScoreDesc_perm r ys).mem_iff.mp hb
      rcases List.mem_cons.mp hb2 with rfl | hb2
      · exact (not_le.mp hgt).le
      · exact hy b hb2

/-- The stable sort produces a list sorted by score descending. -/
theorem sortByScoreDesc_sorted (l : List RankedResult) :
    List.Pairwise (fun a b : RankedResult => b.score ≤ a.score)
      (sortByScoreDesc l) := by
  induction l with
  | nil => simp [sortByScoreDesc]
  | cons x xs ih =>
    rw [sortByScoreDesc]
    exact insertByScoreDesc_sorted ih

/-- Stability of the insertion step: the elements of any one score class
keep their relative order (the inserted element, which stood first, stays
before every equal-score element). -/
theorem insertByScoreDesc_filter (s : ℤ) (r : RankedResult)
    (l : List RankedResult) :
    (insertByScoreDesc r l).filter (fun x => x.score == s) =
      (r :: l).filter (fun x => x.score == s) := by
  induction l with
  | nil => rfl
  | cons y ys ih =>
    rw [insertByScoreDesc]
    split
    · rfl
    · rename_i hgt
      by_cases hr : r.score = s
      · have hy : ¬ y.score = s := by
          intro hy
          exact hgt (by rw [hr, hy])
        simp [List.filter_cons, hr, hy, ih]
      · simp [List.filter_cons, hr, ih]

/-- Stability of the stable sort: every score class appears in the output
in its original input order. -/
theorem sortByScoreDesc_filter (s : ℤ) (l : List RankedResult) :
    (sortByScoreDesc l).filter (fun x => x.score == s) =
      l.filter (fun x => x.score == s) := by
  induction l with
  | nil => rfl
  | cons x xs ih =>
    rw [sortByScoreDesc, insertByScoreDesc_filter]
    by_cases hx : x.score = s
    · simp [List.filter_cons, hx, ih]
    · simp [List.filter_cons, hx, ih]

/-- Rank reassignment writes consecutive ranks starting at `i`. -/
theorem assignRanks_map_rank :
    ∀ (i : ℕ) (l : List RankedResult),
      (assignRanks i l).map (fun r => r.rank) = List.range' i l.length := by
  intro i l
  induction l generalizing i with
  | nil => rfl
  | cons r rs ih => simp [assignRanks, List.range', ih]

/-- Rank reassignment does not change the scores. -/
theorem assignRanks_map_score :
    ∀ (i : ℕ) (l : List RankedResult),
      (assignRanks i l).map (fun r => r.score) = l.map (fun r => r.score) := by
  intro i l
  induction l generalizing i with
  | nil => rfl
  | cons r rs ih => simp [assignRanks, ih]

/-- Rank reassignment preserves the length. -/
theorem assignRanks_length (i : ℕ) (l : List RankedResult) :
    (assignRanks i l).length = l.length := by
  induction l generalizing i with
  | nil => rfl
  | cons r rs ih => simp [assignRanks, ih]

/-- The capacity-limited dedup loop returns exactly the first `room`
elements of the unlimited first-appearance filter. -/
theorem dedupLoop_eq_take (parse : String → Option URLParts) :
    ∀ (rs : List SearchResult) (seen : List String) (room : ℕ), 1 ≤ room →
      dedupLoop parse rs seen room = (firstAppearance parse rs seen).take room := by
  intro rs
  induction rs with
  | nil => intro seen room _; simp [dedupLoop, firstAppearance]
  | cons r rs ih =>
    intro seen room hroom
    rw [dedupLoop, firstAppearance]
    cases hp : parse r.link with
    | none => exact ih seen room hroom
    | some u =>
      by_cases hseen : seen.contains u.origin = true
      · simp only [if_pos hseen]
        exact ih seen room hroom
      · by_cases hskip : shouldSkipDomain u.hostname = true
        · simp only [if_neg hseen, if_pos hskip]
          exact ih seen room hroom
        · simp only [if_neg hseen, if_neg hskip]
          obtain ⟨n, rfl⟩ : ∃ n, room = n + 1 := ⟨room - 1, by omega⟩
          rw [List.take_succ_cons]
          cases n with
          | zero => simp
          | succ m =>
            have h1 : ¬ m + 1 + 1 ≤ 1 := by omega
            simp only [h1, if_false, Nat.add_sub_cancel]
            exact congrArg _ (ih (u.origin :: seen) (m + 1) (by omega))

/-- Every item kept by the first-appearance filter comes from a raw
result whose link parses, is not on the skip-list, and whose origin was
not already seen. -/
theorem firstAppearance_mem (parse : String → Option URLParts) :
    ∀ (rs : List SearchResult) (seen : List String),
      ∀ item ∈ firstAppearance parse rs seen,
        ∃ u r, r ∈ rs ∧ item.url = r.link ∧ parse item.url = some u ∧
          seen.contains u.origin = false ∧
          shouldSkipDomain u.hostname = false := by
  intro rs
  induction rs with
  | nil => intro seen item h; cases h
  | cons r rs ih =>
    intro seen item h
    rw [firstAppearance] at h
    split at h
    · obtain ⟨u, r0, hr0, h1, h2, h3, h4⟩ := ih seen item h
      exact ⟨u, r0, List.mem_cons_of_mem r hr0, h1, h2, h3, h4⟩
    · rename_i u hp
      split at h
      · obtain ⟨u0, r0, hr0, h1, h2, h3, h4⟩ := ih seen item h
        exact ⟨u0, r0, List.mem_cons_of_mem r hr0, h1, h2, h3, h4⟩
      · split at h
        · obtain ⟨u0, r0, hr0, h1, h2, h3, h4⟩ := ih seen item h
          exact ⟨u0, r0, List.mem_cons_of_mem r hr0, h1, h2, h3, h4⟩
        · rename_i hseen hskip
          rcases List.mem_cons.mp h with rfl | h
          · refine ⟨u, r, List.mem_cons_self r rs, rfl, ?_, ?_, ?_⟩
            · exact hp
            · exact Bool.eq_false_iff.mpr hseen
            · exact Bool.eq_false_iff.mpr hskip
          · obtain ⟨u0, r0, hr0, h1, h2, h3, h4⟩ := ih (u.origin :: seen) item h
            refine ⟨u0, r0, List.mem_cons_of_mem r hr0, h1, h2, ?_, h4⟩
            simp only [List.contains_cons, Bool.or_eq_false_iff] at h3
            exact h3.2

/-- The first-appearance filter keeps pairwise distinct origins. -/
theorem firstAppearance_pairwise (parse : String → Option URLParts) :
    ∀ (rs : List SearchResult) (seen : List String),
      List.Pairwise (fun a b => originOf parse a ≠ originOf parse b)
        (firstAppearance parse rs seen) := by
  intro rs
  induction rs with
  | nil => intro seen; simp [firstAppearance]
  | cons r rs ih =>
    intro seen
    rw [firstAppearance]
    cases hp : parse r.link with
    | none => exact ih seen
    | some u =>
      by_cases hseen : seen.contains u.origin = true
      · simp only [if_pos hseen]
        exact ih seen
      · by_cases hskip : shouldSkipDomain u.hostname = true
        · simp only [if_neg hseen, if_pos hskip]
          exact ih seen
        · simp only [if_neg hseen, if_neg hskip]
          refine List.pairwise_cons.mpr ⟨?_, ih (u.origin :: seen)⟩
          intro b hb
          obtain ⟨u0, r0, _, _, h2, h3, _⟩ :=
            firstAppearance_mem parse rs (u.origin :: seen) b hb
          have hne : u0.origin ≠ u.origin := by
            simp only [List.contains_cons, Bool.or_eq_false_iff, beq_eq_false_iff_ne] at h3
            exact fun he => h3.1 he
          simp only [originOf, hp, h2, Option.map_some]
          intro hcontra
          exact hne (by simpa using hcontra.symm)

/-- A present-or-defaulted string is non-empty when the default is. -/
theorem jsOrOptS_isEmpty_false {o : Option String} {d : String}
    (hd : d.isEmpty = false) : (jsOrOptS o d).isEmpty = false := by
  cases o with
  | none => exact hd
  | some s =>
    rw [jsOrOptS]
    split
    · exact hd
    · rename_i h
      exact Bool.eq_false_iff.mpr h

/-- The default not-found message of the POST handler is never empty. -/
theorem notFoundMsg_isEmpty_false (niche : String) :
    ("No websites found for \"" ++ niche ++
      "\". Try a different search term.").isEmpty = false := by
  cases hb : ("No websites found for \"" ++ niche ++
      "\". Try a different search term.").isEmpty with
  | false => rfl
  | true =>
    exfalso
    have he := (String.isEmpty_iff _).mp hb
    have hl := congrArg String.length he
    rw [String.length_append, String.length_append] at hl
    have h1 : ("No websites found for \"").length = 23 := rfl
    have h2 : ("\". Try a different search term.").length = 31 := rfl
    rw [h1, h2] at hl
    simp at hl

/-- Concrete evaluation: the example origin under all-success outcomes
scores 86 with components 100/80/60/75/90. -/
theorem scoreMultipleSites_envGood_eval :
    scoreMultipleSites parseW (fun _ => envGood) ["https://example.com"] =
      Except.ok [scoredW] := by
  simp +decide [scoreMultipleSites, scoreMultipleSitesGo, scoreOne, scoreSite,
    scoreSiteComponents, scoreSiteRace, getPerformanceScore, getAuthorityScore,
    jsRound, parseW, envGood, jsFalsyStr, hostFallback, scoredW]
  norm_num

/-- Concrete evaluation: with the PageSpeed fetch failing and the
PageRank race timing out, the example origin still scores, with zeroed
performance and authority components. -/
theorem scoreMultipleSites_envSignalsFail_eval :
    scoreMultipleSites parseW (fun _ => envSignalsFail) ["https://example.com"] =
      Except.ok [scoredFailW] := by
  simp +decide [scoreMultipleSites, scoreMultipleSitesGo, scoreOne, scoreSite,
    scoreSiteComponents, scoreSiteRace, getPerformanceScore, getAuthorityScore,
    jsRound, parseW, envSignalsFail, jsFalsyStr, hostFallback, scoredFailW]
  norm_num


/-- The items of `discoverNicheWebsites` are exactly the first 10 entries
of the first-appearance filter of the accumulated raw results. -/
theorem discover_items_eq_take (parse : String → Option URLParts)
    (search : String → ℕ → Except String (List SearchResult))
    (niche : String) :
    (discoverNicheWebsites parse search niche).items =
      (firstAppearance parse
        (collectRaw search (buildSearchQueries niche) [] none).1 []).take 10 := by
  rw [discoverNicheWebsites]
  by_cases hE : (collectRaw search (buildSearchQueries niche) [] none).1.isEmpty
  · simp only [hE, if_true]
    rw [List.isEmpty_iff.mp hE]
    rfl
  · simp only [hE, if_false]
    rw [dedupLoop_eq_take parse _ [] 15 (by norm_num), List.take_take]
    rfl

/-- Every discovery item has a parsable, non-skip-listed link drawn from
the accumulated raw results — nothing is fabricated. -/
theorem discover_items_from_raw (parse : String → Option URLParts)
    (search : String → ℕ → Except String (List SearchResult))
    (niche : String) :
    ∀ item ∈ (discoverNicheWebsites parse search niche).items,
      ∃ u, parse item.url = some u ∧ shouldSkipDomain u.hostname = false ∧
        item.url ∈ (collectRaw search (buildSearchQueries niche) [] none).1.map
          (fun r => r.link) := by
  intro item hitem
  rw [discover_items_eq_take] at hitem
  obtain ⟨u, r0, hr0, h1, h2, _, h4⟩ :=
    firstAppearance_mem parse _ [] item ((List.take_subset 10 _) hitem)
  exact ⟨u, h2, h4, List.mem_map.mpr ⟨r0, hr0, h1.symm⟩⟩

/-! ## Claim theorems -/

/-- C1: for every result produced by the scoring path
(`scoreMultipleSites`), the total score equals
`round(search*0.40 + performance*0.25 + authority*0.15 + freshness*0.10 +
usability*0.10)` computed from that result's own component scores; in
particular the seed components search=100, performance=80, authority=60,
freshness=75, usability=90 yield total 86. -/
theorem C1_total_is_weighted_formula
    (parse : String → Option URLParts) (env : ℕ → SignalEnv)
    (origins : List String) (out : List ScoredSite)
    (h : scoreMultipleSites parse env origins = Except.ok out) :
    (∀ r ∈ out, r.score = weightedTotal r.components) ∧
    weightedTotal ⟨100, 80, 60, 75, 90⟩ = 86 := by
  constructor
  · intro r hr
    obtain ⟨q, o, hq⟩ := scoreMultipleSitesGo_mem h r hr
    obtain ⟨_, hcomp, hscore⟩ := scoreSite_ok_spec (scoreOne_ok_eq hq)
    rw [hscore, hcomp]
  · norm_num [weightedTotal, jsRound]

/-- Witness for C1: a concrete successful run. -/
theorem C1_total_is_weighted_formula_witness :
    scoredW.score = weightedTotal scoredW.components ∧
    weightedTotal ⟨100, 80, 60, 75, 90⟩ = 86 :=
  ⟨(C1_total_is_weighted_formula parseW (fun _ => envGood) ["https://example.com"]
      [scoredW] scoreMultipleSites_envGood_eval).1 scoredW (List.mem_singleton.mpr rfl),
   (C1_total_is_weighted_formula parseW (fun _ => envGood) ["https://example.com"]
      [scoredW] scoreMultipleSites_envGood_eval).2⟩

/-- C7: for every candidate scored by the live discovery-scoring path,
the freshness component is the fixed constant 75. -/
theorem C7_freshness_constant
    (parse : String → Option URLParts) (env : ℕ → SignalEnv)
    (origins : List String) (out : List ScoredSite)
    (h : scoreMultipleSites parse env origins = Except.ok out) :
    ∀ r ∈ out, r.components.freshness = 75 := by
  intro r hr
  obtain ⟨q, o, hq⟩ := scoreMultipleSitesGo_mem h r hr
  obtain ⟨_, hcomp, _⟩ := scoreSite_ok_spec (scoreOne_ok_eq hq)
  rw [hcomp]
  exact scoreSiteComponents_freshness

/-- Witness for C7: the concrete degraded run keeps freshness 75. -/
theorem C7_freshness_constant_witness :
    scoredFailW.components.freshness = 75 :=
  C7_freshness_constant parseW (fun _ => envSignalsFail) ["https://example.com"]
    [scoredFailW] scoreMultipleSites_envSignalsFail_eval scoredFailW
    (List.mem_singleton.mpr rfl)

/-- C3: a failed or timed-out signal fetch yields value 0 with an error
recorded (`ok = false`), the corresponding component score of the
candidate is exactly 0, and the candidate is still present in the
scoring output — the run is never aborted because one signal failed for
one site. -/
theorem C3_signal_failure_fail_soft
    (parse : String → Option URLParts) (env : ℕ → SignalEnv)
    (origins : List String) (p : ℕ) (hp : p < origins.length)
    (hparse : ∀ o ∈ origins, (parse o).isSome) :
    (∀ resp, psiFetchFailed resp = true →
      (getPerformanceScore resp).performanceScore = 0 ∧
        (getPerformanceScore resp).error.isSome = true) ∧
    (∀ parsed resp, oprFetchFailed resp = true →
      (getAuthorityScore parsed resp).authorityScore = 0 ∧
        (getAuthorityScore parsed resp).error.isSome = true) ∧
    ∃ out, scoreMultipleSites parse env origins = Except.ok out ∧
      out.length = origins.length ∧
      ∃ r, out.get? p = some r ∧ r.url = origins.get ⟨p, hp⟩ ∧
        (psiCallFailed (env p) = true → r.components.performance = 0) ∧
        (oprCallFailed (env p) = true → r.components.authority = 0) := by
  refine ⟨fun resp h => getPerformanceScore_failed h,
          fun parsed resp h => getAuthorityScore_failed parsed h, ?_⟩
  obtain ⟨out, hout⟩ := @scoreMultipleSitesGo_ok_of_parse parse env origins 0 hparse
  obtain ⟨hlen, hget⟩ := scoreMultipleSitesGo_get hout
  obtain ⟨r, hr1, hr2⟩ := hget p hp
  rw [Nat.zero_add] at hr2
  obtain ⟨hurl, hcomp, _⟩ := scoreSite_ok_spec (scoreOne_ok_eq hr2)
  refine ⟨out, hout, hlen, r, hr1, hurl, ?_, ?_⟩
  · intro hfail
    rw [hcomp]
    exact scoreSiteComponents_performance_zero hfail
  · intro hfail
    rw [hcomp]
    exact scoreSiteComponents_authority_zero hfail

/-- Witness for C3: a concrete run where PageSpeed rejects and the
PageRank race times out; the candidate is still scored with those two
components at 0. -/
theorem C3_signal_failure_fail_soft_witness :
    scoredFailW.url = "https://example.com" ∧
    scoredFailW.components.performance = 0 ∧
    scoredFailW.components.authority = 0 := by
  have h := C3_signal_failure_fail_soft parseW (fun _ => envSignalsFail)
    ["https://example.com"] 0 (by decide)
    (by intro o ho; rcases List.mem_singleton.mp ho with rfl; simp [parseW])
  obtain ⟨_, _, out, hout, _, r, hr1, hurl, hperf, hauth⟩ := h
  rw [scoreMultipleSites_envSignalsFail_eval] at hout
  cases hout
  rcases Option.some.inj hr1 with rfl
  exact ⟨hurl, hperf (by decide), hauth (by decide)⟩

/-- C10: when scoring an individual origin throws, `scoreMultipleSites`
does not return a fallback record for it — the `.catch` handler itself
evaluates `new URL(origin)` and throws, so the whole call rejects and no
list is returned.  (`scoreSite` can only throw for an origin that does
not parse, and then the handler's `new URL(origin)` throws too,
contradicting the handler's stated purpose of returning a minimal result
even on complete failure.) -/
theorem C10_fallback_handler_throws :
    scoreMultipleSites (fun _ => none) (fun _ => envSiteFail) ["not a url"] =
      Except.error "Invalid URL" := rfl

/-- C4: for every completed run, the results list is sorted by score in
descending order, ties keep the original discovery order (the sort is
stable: each score class appears in its input order), and the rank
fields are exactly 1..len(results) assigned in list order. -/
theorem C4_results_sorted_and_ranked (l : List RankedResult) :
    List.Pairwise (fun a b : ℤ => b ≤ a)
      ((sortAndRank l).map (fun r => r.score)) ∧
    (sortAndRank l).map (fun r => r.rank) = List.range' 1 l.length ∧
    (∀ s : ℤ, (sortByScoreDesc l).filter (fun x => x.score == s) =
      l.filter (fun x => x.score == s)) := by
  refine ⟨?_, ?_, fun s => sortByScoreDesc_filter s l⟩
  · rw [sortAndRank, assignRanks_map_score]
    exact List.pairwise_map.mpr (sortByScoreDesc_sorted l)
  · rw [sortAndRank, assignRanks_map_rank, (sortByScoreDesc_perm l).length_eq]

/-- Witness for C4 at a concrete one-element run. -/
theorem C4_results_sorted_and_ranked_witness :
    (sortAndRank [resultW]).map (fun r => r.rank) =
      List.range' 1 [resultW].length :=
  (C4_results_sorted_and_ranked [resultW]).2.1

/-- C5: for every niche, `discover` returns at most 10 candidates with
pairwise-distinct origins; every candidate's link parses, is not on the
skip-list, and comes from the accumulated raw results; and the candidate
list is exactly the first 10 entries of the first-appearance filter of
the raw results (unparsable and skip-listed links dropped, first
occurrence of each origin kept, in order). -/
theorem C5_discover_distinct_bounded (parse : String → Option URLParts)
    (search : String → ℕ → Except String (List SearchResult))
    (niche : String) :
    (discoverNicheWebsites parse search niche).items.length ≤ 10 ∧
    List.Pairwise (fun a b => originOf parse a ≠ originOf parse b)
      (discoverNicheWebsites parse search niche).items ∧
    (∀ item ∈ (discoverNicheWebsites parse search niche).items,
      ∃ u, parse item.url = some u ∧ shouldSkipDomain u.hostname = false ∧
        item.url ∈ (collectRaw search (buildSearchQueries niche) [] none).1.map
          (fun r => r.link)) ∧
    (discoverNicheWebsites parse search niche).items =
      (firstAppearance parse
        (collectRaw search (buildSearchQueries niche) [] none).1 []).take 10 := by
  have heq := discover_items_eq_take parse search niche
  refine ⟨?_, ?_, discover_items_from_raw parse search niche, heq⟩
  · rw [heq]
    exact List.length_take_le 10 _
  · rw [heq]
    exact (firstAppearance_pairwise parse _ []).sublist (List.take_sublist 10 _)

/-- Witness for C5 at a concrete search environment with a duplicate
origin and an unparsable link. -/
theorem C5_discover_distinct_bounded_witness :
    (discoverNicheWebsites parseGood searchGood "cooking").items.length ≤ 10 :=
  (C5_discover_distinct_bounded parseGood searchGood "cooking").1

/-- C6: the usability component is the sum of the fixed weights of the
passing checks — HTTPS 0.4, mobile viewport meta tag 0.3, Open Graph
meta tag 0.3 — scaled to 0-100 in the component score.  The usability
fraction itself is modelled from the spec because the site-analyzer
module of the scoring path is not among the sources. -/
theorem C6_usability_weights (parse : String → Option URLParts)
    (origin : String) (searchRank : ℤ) (page : SitePage)
    (t d : Option String) (env : SignalEnv)
    (hto : env.siteRaceTimeout = false)
    (hok : env.siteOutcome = Except.ok ⟨t, d, usabilityFraction page⟩) :
    (scoreSiteComponents parse env origin searchRank).usability =
      (if page.https then 40 else 0) +
        (if page.hasViewportMeta then 30 else 0) +
        (if page.hasOpenGraphMeta then 30 else 0) ∧
    ∀ r, scoreSite parse env origin searchRank = Except.ok r →
      r.components.usability =
        (if page.https then 40 else 0) +
          (if page.hasViewportMeta then 30 else 0) +
          (if page.hasOpenGraphMeta then 30 else 0) := by
  have hu : (scoreSiteComponents parse env origin searchRank).usability =
      jsRound (usabilityFraction page * 100) :=
    scoreSiteComponents_usability hto hok
  have hval : jsRound (usabilityFraction page * 100) =
      (if page.https then (40 : ℤ) else 0) +
        (if page.hasViewportMeta then 30 else 0) +
        (if page.hasOpenGraphMeta then 30 else 0) := by
    rcases page with ⟨b1, b2, b3⟩
    cases b1 <;> cases b2 <;> cases b3 <;> norm_num [usabilityFraction, jsRound]
  refine ⟨hu.trans hval, ?_⟩
  intro r hr
  obtain ⟨_, hcomp, _⟩ := scoreSite_ok_spec hr
  rw [hcomp]
  exact hu.trans hval

/-- Witness for C6: HTTPS and viewport pass, Open Graph fails, giving
usability 70. -/
theorem C6_usability_weights_witness :
    (scoreSiteComponents parseW envUsab "https://example.com" 1).usability = 70 := by
  have h := (C6_usability_weights parseW "https://example.com" 1 pageW
    (some "T") (some "D") envUsab rfl rfl).1
  simpa [pageW] using h

/-- Counterexample to C2 as stated: with each fetch running up to its
timeout budget (site 10s, PageSpeed 15s, PageRank 10s), the sequential
awaits of `scoreSite` take 35s, strictly more than the 15s that the
slowest fetcher alone takes — the per-candidate signal latency is not
bounded by the slowest of the three. -/
theorem C2_sequential_latency_counterexample :
    scoreSiteSignalLatency ⟨10000, 15000, 10000⟩ = 35000 ∧
    concurrentSignalLatency ⟨10000, 15000, 10000⟩ = 15000 ∧
    ¬ scoreSiteSignalLatency ⟨10000, 15000, 10000⟩ ≤
        concurrentSignalLatency ⟨10000, 15000, 10000⟩ := by
  norm_num [scoreSiteSignalLatency, concurrentSignalLatency, raceTime,
    siteAnalysisTimeoutMs, psiTimeoutMs, oprTimeoutMs]

/-- C2 (amended): the three signal fetchers of `scoreSite` are awaited
sequentially, each racing its own timer, so the per-candidate
signal-gathering latency is the sum of the three race times — at least
the slowest of the three and at most the sum of the three timeout
budgets (35s), not bounded by the slowest alone. -/
theorem C2_sequential_latency_sum (dur : FetchDurations)
    (h1 : 0 ≤ dur.site) (h2 : 0 ≤ dur.psi) (h3 : 0 ≤ dur.opr) :
    scoreSiteSignalLatency dur =
      raceTime dur.site siteAnalysisTimeoutMs + raceTime dur.psi psiTimeoutMs +
        raceTime dur.opr oprTimeoutMs ∧
    concurrentSignalLatency dur ≤ scoreSiteSignalLatency dur ∧
    scoreSiteSignalLatency dur ≤
      siteAnalysisTimeoutMs + psiTimeoutMs + oprTimeoutMs := by
  have ha : 0 ≤ raceTime dur.site siteAnalysisTimeoutMs :=
    le_min h1 (by norm_num [siteAnalysisTimeoutMs])
  have hb : 0 ≤ raceTime dur.psi psiTimeoutMs :=
    le_min h2 (by norm_num [psiTimeoutMs])
  have hc : 0 ≤ raceTime dur.opr oprTimeoutMs :=
    le_min h3 (by norm_num [oprTimeoutMs])
  refine ⟨rfl, ?_, ?_⟩
  · rw [concurrentSignalLatency, scoreSiteSignalLatency]
    exact max_le (by linarith) (max_le (by linarith) (by linarith))
  · rw [scoreSiteSignalLatency]
    exact add_le_add (add_le_add (min_le_right _ _) (min_le_right _ _))
      (min_le_right _ _)

/-- Witness for the amended C2 at concrete durations. -/
theorem C2_sequential_latency_sum_witness :
    concurrentSignalLatency ⟨1000, 2000, 3000⟩ ≤
      scoreSiteSignalLatency ⟨1000, 2000, 3000⟩ :=
  (C2_sequential_latency_sum ⟨1000, 2000, 3000⟩ (by norm_num) (by norm_num)
    (by norm_num)).2.1

/-- Counterexample to C8 as stated: when raw results exist but every one
is filtered out (here: a single skip-listed link), zero candidates
survive, yet `discoverNicheWebsites` returns `items = []` with no error
string at all. -/
theorem C8_counterexample_no_error_string :
    (discoverNicheWebsites parseFB searchFB "x").items = [] ∧
    (discoverNicheWebsites parseFB searchFB "x").error = none :=
  ⟨by decide, by decide⟩

/-- C8 (amended): when zero candidates survive discovery, the submission
yields a handled failure response — `success: false`, `results: []` and
a non-empty error message (the route supplies a default when discovery
returned none) — and no placeholder site is ever fabricated: every
discovery item originates from the accumulated raw results.  A
descriptive error string from `discover` itself is only guaranteed when
no raw result at all accumulated. -/
theorem C8_discovery_failure_handled (parse : String → Option URLParts)
    (search : String → ℕ → Except String (List SearchResult))
    (niche : String) :
    ((discoverNicheWebsites parse search niche).items = [] →
      (discoveryFailureResponse niche
        (discoverNicheWebsites parse search niche)).success = false ∧
      (discoveryFailureResponse niche
        (discoverNicheWebsites parse search niche)).results = [] ∧
      (discoveryFailureResponse niche
        (discoverNicheWebsites parse search niche)).error.isEmpty = false) ∧
    ((collectRaw search (buildSearchQueries niche) [] none).1 = [] →
      (discoverNicheWebsites parse search niche).error.isSome) ∧
    (∀ item ∈ (discoverNicheWebsites parse search niche).items,
      item.url ∈ (collectRaw search (buildSearchQueries niche) [] none).1.map
        (fun r => r.link)) := by
  refine ⟨?_, ?_, ?_⟩
  · intro _
    exact ⟨rfl, rfl, jsOrOptS_isEmpty_false (notFoundMsg_isEmpty_false niche)⟩
  · intro hraw
    rw [discoverNicheWebsites]
    simp only [hraw]
    rfl
  · intro item hitem
    obtain ⟨u, _, _, hmem⟩ := discover_items_from_raw parse search niche item hitem
    exact hmem

/-- Witness for the amended C8: a provider that always fails yields a
handled failure with a non-empty message and an error from discovery. -/
theorem C8_discovery_failure_handled_witness :
    (discoveryFailureResponse "x"
      (discoverNicheWebsites parseW searchDown "x")).success = false ∧
    (discoveryFailureResponse "x"
      (discoverNicheWebsites parseW searchDown "x")).results = [] ∧
    (discoveryFailureResponse "x"
      (discoverNicheWebsites parseW searchDown "x")).error.isEmpty = false := by
  exact (C8_discovery_failure_handled parseW searchDown "x").1 rfl

/-- C9: a run stored under a runId by a completed submission is returned
unchanged by a later retrieval: niche, nicheSlug, status and the results
list are identical by value, and storing other runs under different ids
does not disturb it. -/
theorem C9_run_roundtrip (st : RunStorage) (runId niche nicheSlug : String)
    (results : List RankedResult) :
    getRun (storeCompletedRun st runId niche nicheSlug results) runId =
      Except.ok { runId := runId, niche := niche, nicheSlug := nicheSlug,
                  status := "completed", results := results } ∧
    ∀ k v, k ≠ runId →
      getRun (storageSet (storeCompletedRun st runId niche nicheSlug results) k v)
          runId =
        Except.ok { runId := runId, niche := niche, nicheSlug := nicheSlug,
                    status := "completed", results := results } := by
  constructor
  · simp [getRun, storeCompletedRun, storageSet, storageGet, List.find?]
  · intro k v hk
    simp [getRun, storeCompletedRun, storageSet, storageGet, List.find?, hk]

/-- Witness for C9: a concrete store/retrieve round trip surviving an
unrelated later store. -/
theorem C9_run_roundtrip_witness :
    getRun (storageSet (storeCompletedRun [] "run_1" "cooking" "cooking"
        [resultW]) "run_2"
        { id := "run_2", niche := "travel", nicheSlug := "travel",
          status := "completed", results := [] }) "run_1" =
      Except.ok { runId := "run_1", niche := "cooking", nicheSlug := "cooking",
                  status := "completed", results := [resultW] } :=
  (C9_run_roundtrip [] "run_1" "cooking" "cooking" [resultW]).2 "run_2"
    { id := "run_2", niche := "travel", nicheSlug := "travel",
      status := "completed", results := [] } (by decide)

end WebsiteRanker
